import Mathlib

/-!
Verification of the blog build pipeline in `scripts/build_blog.py`.

Source text is modelled as `List Char`.  The external compiler (`typst`)
and the Jinja2 template renderer are modelled as explicit inputs: the
compiler's observable behaviour is a record of its exit status, captured
stderr, and the files it produced; the renderer is an arbitrary function
from template text and render context to output text.  All functions of
the script itself are translated directly from the Python source.
-/

/-- Character class of the regex class `\s` (ASCII whitespace). -/
def isSpaceChar (c : Char) : Bool :=
  c == ' ' || c == '\t' || c == '\n' || c == '\r' || c == '\x0b' || c == '\x0c'

/-- Character class of the regex class `\w` (word characters, ASCII approximation). -/
def isWordChar (c : Char) : Bool :=
  c.isAlphanum || c == '_'

/-- Greedy match of one-or-more characters satisfying `p` (regex `p+`):
returns the nonempty consumed run and the remainder, or `none` if the first
character fails. -/
def munch1 (p : Char → Bool) : List Char → Option (List Char × List Char)
  | [] => none
  | c :: rest =>
    if p c then some (c :: rest.takeWhile p, rest.dropWhile p) else none

/-- Match of the declaration pattern without its leading marker, the regex
fragment `\w+\s+=\s+"[^"]*"`, at the head of `s`.  On success returns the
captured key and value together with the text after the match. -/
def matchPlainDecl (s : List Char) : Option ((List Char × List Char) × List Char) :=
  match munch1 isWordChar s with
  | none => none
  | some (key, s1) =>
    match munch1 isSpaceChar s1 with
    | none => none
    | some (_, s2) =>
      match s2 with
      | '=' :: s3 =>
        match munch1 isSpaceChar s3 with
        | none => none
        | some (_, s4) =>
          match s4 with
          | '\x22' :: s5 =>
            match s5.dropWhile (fun c => c != '\x22') with
            | '\x22' :: s6 => some ((key, s5.takeWhile (fun c => c != '\x22')), s6)
            | _ => none
          | _ => none
      | _ => none

/-- Match of the full metadata declaration regex of `extract_metadata`,
`#let\s+(\w+)\s+=\s+"([^"]*)"`, at the head of `s`. -/
def matchDecl (s : List Char) : Option ((List Char × List Char) × List Char) :=
  if "#let".data.isPrefixOf s then
    match munch1 isSpaceChar (s.drop 4) with
    | none => none
    | some (_, s1) => matchPlainDecl s1
  else none

/-- Left-to-right scan collecting all non-overlapping matches of the
declaration regex, as `re.finditer` does; each match resumes after the end
of the previous one, a failed match advances one character.  The fuel
argument bounds the recursion; every step shortens the text, so fuel equal
to the length of the text is always sufficient. -/
def scanDeclsF : Nat → List Char → List (List Char × List Char)
  | 0, _ => []
  | _, [] => []
  | fuel + 1, c :: rest =>
    match matchDecl (c :: rest) with
    | some (kv, remaining) => kv :: scanDeclsF fuel remaining
    | none => scanDeclsF fuel rest

/-- Python `extract_metadata`: all `#let key = "value"` declarations of the
source text, in match order.  The Python dict it builds is recovered by
`mdLookup` (last binding of a key wins). -/
def extract_metadata (content : List Char) : List (List Char × List Char) :=
  scanDeclsF (content.length + 1) content

/-- Lookup in the metadata mapping with Python dict semantics: the value of
the last declaration of `k`, if any. -/
def mdLookup (m : List (List Char × List Char)) (k : List Char) : Option (List Char) :=
  m.reverse.lookup k

/-- Python `metadata.get(k, d)`. -/
def mdGet (m : List (List Char × List Char)) (k d : List Char) : List Char :=
  (mdLookup m k).getD d

/-- Python `has_math`: search for the regex `\$[^$]+\$`, i.e. a dollar sign
followed by one or more non-dollar characters and a closing dollar sign. -/
def has_math : List Char → Bool
  | [] => false
  | c :: rest =>
    (c == '$' && !(rest.takeWhile (fun d => d != '$')).isEmpty
              && !(rest.dropWhile (fun d => d != '$')).isEmpty)
    || has_math rest

/-- The body-start marker of the HTML content extractor. -/
def bodyOpen : List Char := "<body>".data

/-- The body-end marker of the HTML content extractor. -/
def bodyClose : List Char := "</body>".data

/-- Index of the first occurrence of `pat` as a contiguous substring,
computed by left-to-right scan. -/
def findSub (pat : List Char) : List Char → Option Nat
  | [] => if pat.isEmpty then some 0 else none
  | c :: rest =>
    if pat.isPrefixOf (c :: rest) then some 0
    else (findSub pat rest).map (· + 1)

/-- Python `str.strip`: remove leading and trailing whitespace. -/
def strip (s : List Char) : List Char :=
  ((s.dropWhile isSpaceChar).reverse.dropWhile isSpaceChar).reverse

/-- Body extraction step of `compile_typst_to_html`: the Python code runs
`re.search(r"<body>(.*?)</body>", html, re.DOTALL)` and returns
`group(1).strip()`.  The leftmost non-greedy match starts at the first
occurrence of the open marker and ends at the first occurrence of the
close marker after it. -/
def extractBody (html : List Char) : Option (List Char) :=
  match findSub bodyOpen html with
  | none => none
  | some i =>
    let after := html.drop (i + bodyOpen.length)
    match findSub bodyClose after with
    | none => none
    | some j => some (strip (after.take j))

/-- Index of the first occurrence of `pat` in `s`, written as the spec
describes it: the least position at which `pat` is a prefix of the rest of
the text.  Comparison definition for the refinement proof of the HTML
content extractor. -/
def firstOccur (pat s : List Char) : Option Nat :=
  (List.range (s.length + 1)).find? (fun i => pat.isPrefixOf (s.drop i))

/-- The HTML content extractor as the spec words it: locate the first
region delimited by the body-start and body-end markers and return its
trimmed inner text.  Comparison definition for the refinement proof. -/
def extractBodySpec (html : List Char) : Option (List Char) :=
  match firstOccur bodyOpen html with
  | none => none
  | some i =>
    let after := html.drop (i + bodyOpen.length)
    match firstOccur bodyClose after with
    | none => none
    | some j => some (strip (after.take j))

/-- Python string comparison (used by `sorted()` on the generated file
paths): lexicographic by code point, a proper prefix sorts first. -/
def strLt : List Char → List Char → Bool
  | [], [] => false
  | [], _ :: _ => true
  | _ :: _, [] => false
  | a :: as, b :: bs =>
    if a.toNat < b.toNat then true
    else if b.toNat < a.toNat then false
    else strLt as bs

/-- Match of the glob pattern `output-*.svg` used to collect the generated
page files. -/
def globMatchOut (name : List Char) : Bool :=
  "output-".data.isPrefixOf name && ".svg".data.isSuffixOf name
    && 11 ≤ name.length

/-- Stable insertion of a named entry into a name-sorted list. -/
def insertByName (x : List Char × List Char) :
    List (List Char × List Char) → List (List Char × List Char)
  | [] => [x]
  | y :: ys => if strLt y.1 x.1 then y :: insertByName x ys else x :: y :: ys

/-- Python `sorted()` over (name, contents) pairs of generated files:
stable sort by filename in lexicographic order. -/
def sortByName : List (List Char × List Char) → List (List Char × List Char)
  | [] => []
  | x :: xs => insertByName x (sortByName xs)

/-- Python `"\n".join`. -/
def joinNL : List (List Char) → List Char
  | [] => []
  | [x] => x
  | x :: xs => x ++ '\n' :: joinNL xs

/-- Observable behaviour of one run of the external compiler in HTML mode:
exit status, captured stderr, and the text it wrote to the temporary
output file. -/
structure HtmlResult where
  returncode : Int
  stderr : List Char
  output : List Char
deriving DecidableEq

/-- Observable behaviour of one run of the external compiler in SVG mode:
exit status, captured stderr, and the (filename, contents) pairs it wrote
into the temporary directory. -/
structure SvgResult where
  returncode : Int
  stderr : List Char
  files : List (List Char × List Char)
deriving DecidableEq

/-- The failure conditions of the build, each one an uncaught fatal error
in the Python script. -/
inductive BuildError where
  | usage
  | missingSource
  | missingTemplate
  | compilerFailed (msg : List Char)
  | noBody
  | noSvgFiles
deriving DecidableEq

/-- Message of the exception raised on a failed SVG compilation. -/
def svgFailMsg (stderr : List Char) : List Char :=
  "Typst SVG compilation failed: ".data ++ stderr

/-- Message of the exception raised on a failed HTML compilation. -/
def htmlFailMsg (stderr : List Char) : List Char :=
  "Typst compilation failed: ".data ++ stderr

/-- Python `compile_typst_to_svg`, as a function of the compiler's
behaviour: fail on non-zero exit status, collect the generated page files
matching `output-*.svg` in sorted filename order, fail if none, and join
their contents with newlines. -/
def compile_typst_to_svg (r : SvgResult) : Except BuildError (List Char) :=
  if r.returncode != 0 then .error (.compilerFailed (svgFailMsg r.stderr))
  else
    let svg_files := sortByName (r.files.filter (fun f => globMatchOut f.1))
    if svg_files.isEmpty then .error .noSvgFiles
    else .ok (joinNL (svg_files.map (fun f => f.2)))

/-- Python `compile_typst_to_html`, as a function of the compiler's
behaviour: fail on non-zero exit status, then extract the trimmed body
region of the output document, failing if there is none. -/
def compile_typst_to_html (r : HtmlResult) : Except BuildError (List Char) :=
  if r.returncode != 0 then .error (.compilerFailed (htmlFailMsg r.stderr))
  else
    match extractBody r.output with
    | some body => .ok body
    | none => .error .noBody

/-- The keyword arguments passed to `template.render` in
`build_blog_post`. -/
structure RenderContext where
  TITLE : List Char
  SLUG : List Char
  DATE_DISPLAY : List Char
  DATE_ISO : List Char
  DESCRIPTION : List Char
  KEYWORDS : List Char
  CONTENT : List Char
  IS_SVG : Bool
deriving DecidableEq

/-- Construction of the render context from the metadata mapping, the
extracted body content and the mode flag, with the defaults of
`build_blog_post`. -/
def renderFields (m : List (List Char × List Char)) (body : List Char)
    (use_svg : Bool) : RenderContext :=
  { TITLE := mdGet m "title".data "Untitled".data
  , SLUG := mdGet m "slug".data []
  , DATE_DISPLAY := mdGet m "date_display".data []
  , DATE_ISO := mdGet m "date_iso".data []
  , DESCRIPTION := mdGet m "description".data []
  , KEYWORDS := mdGet m "keywords".data []
  , CONTENT := body
  , IS_SVG := use_svg }

/-- Python `build_blog_post`: extract metadata, detect math, compile via
the mode chosen by the detection, render the template on the resulting
context.  `render` models the Jinja2 `Template.render` function;
`hres` and `vres` model the external compiler's behaviour in each mode. -/
def build_blog_post (render : List Char → RenderContext → List Char)
    (sourceText templateText : List Char)
    (hres : HtmlResult) (vres : SvgResult) : Except BuildError (List Char) :=
  let metadata := extract_metadata sourceText
  let use_svg := has_math sourceText
  match (if use_svg then compile_typst_to_svg vres else compile_typst_to_html hres) with
  | .error e => .error e
  | .ok body => .ok (render templateText (renderFields metadata body use_svg))

/-- Outcome of one invocation of the script: either it aborts with a
fatal error before reaching the final write, or it writes the rendered
text to the destination file and exits cleanly. -/
inductive MainResult where
  | aborted (e : BuildError)
  | written (content : List Char)
deriving DecidableEq

/-- Process exit status of an outcome: explicit `sys.exit(1)` calls and
uncaught exceptions both terminate the Python process with status 1. -/
def MainResult.exitCode : MainResult → Nat
  | .aborted _ => 1
  | .written _ => 0

/-- Whether the destination file was written. -/
def MainResult.wroteOutput : MainResult → Bool
  | .aborted _ => false
  | .written _ => true

/-- Python `main`: check the argument count, check that the source file
and the template file exist (modelled by `Option`), then run
`build_blog_post`; the destination file is written only when every step
succeeded. -/
def mainBuild (render : List Char → RenderContext → List Char)
    (argc : Nat) (src tmpl : Option (List Char))
    (hres : HtmlResult) (vres : SvgResult) : MainResult :=
  if argc < 3 then .aborted .usage
  else
    match src with
    | none => .aborted .missingSource
    | some s =>
      match tmpl with
      | none => .aborted .missingTemplate
      | some t =>
        match build_blog_post render s t hres vres with
        | .error e => .aborted e
        | .ok out => .written out

deriving instance DecidableEq for Except

/-! Helper lemmas. -/

/-- Claim C3 counterexample: with three generated pages holding `a`, `b`,
`c`, the extracted content is not the plain concatenation `abc`; the pages
are joined with newline separators. -/
theorem svg_pages_not_plain_concat :
    compile_typst_to_svg ⟨0, [], [("output-0.svg".data, "a".data),
      ("output-1.svg".data, "b".data), ("output-2.svg".data, "c".data)]⟩ ≠
      .ok "abc".data := by
  decide

/-- Claim C3 (amended): when the compiler generates exactly the page files
output-0.svg, output-1.svg, output-2.svg with contents A, B, C, the
extracted content is A, B, C in that numeric order joined with a single
newline between consecutive pages, with no transformation of the per-page
markup itself. -/
theorem svg_three_pages_joined (A B C : List Char) :
    compile_typst_to_svg ⟨0, [], [("output-0.svg".data, A),
      ("output-1.svg".data, B), ("output-2.svg".data, C)]⟩ =
      .ok (A ++ '\n' :: (B ++ '\n' :: C)) := rfl

/-- Claim C6: every source containing the substring given by the dollar
delimited expression x+y is classified as math-containing, and every
source with no dollar character is classified as not math-containing. -/
theorem has_math_classification :
    (∀ pre post : List Char, has_math (pre ++ "$x+y$".data ++ post) = true) ∧
    (∀ s : List Char, (∀ c ∈ s, c ≠ '$') → has_math s = false) := by
  constructor
  · intro pre post
    induction pre with
    | nil => rfl
    | cons c cs ih =>
      show (c == '$' && _ && _ || has_math (cs ++ "$x+y$".data ++ post)) = true
      rw [ih, Bool.or_true]
  · intro s h
    induction s with
    | nil => rfl
    | cons c cs ih =>
      have hc : (c == '$') = false :=
        beq_eq_false_iff_ne.mpr (h c (List.mem_cons_self c cs))
      have ih2 := ih (fun x hx => h x (List.mem_cons_of_mem c hx))
      show (c == '$' && _ && _ || has_math cs) = false
      rw [hc, ih2, Bool.false_and, Bool.false_and, Bool.false_or]

/-- Witness for C6 at concrete inputs. -/
theorem has_math_classification_witness :
    has_math "a$x+y$b".data = true ∧ has_math "abc".data = false := by
  constructor
  · have h := has_math_classification.1 "a".data "b".data
    have e : "a".data ++ "$x+y$".data ++ "b".data = "a$x+y$b".data := by decide
    rw [e] at h
    exact h
  · exact has_math_classification.2 "abc".data (by decide)

theorem compile_svg_fail (v : SvgResult) (h : v.returncode ≠ 0) :
    compile_typst_to_svg v = .error (.compilerFailed (svgFailMsg v.stderr)) := by
  unfold compile_typst_to_svg
  rw [if_pos (bne_iff_ne.mpr h)]

theorem compile_html_fail (r : HtmlResult) (h : r.returncode ≠ 0) :
    compile_typst_to_html r = .error (.compilerFailed (htmlFailMsg r.stderr)) := by
  unfold compile_typst_to_html
  rw [if_pos (bne_iff_ne.mpr h)]

theorem build_error_svg (render : List Char → RenderContext → List Char)
    (s t : List Char) (hres : HtmlResult) (vres : SvgResult) (e : BuildError)
    (hm : has_math s = true) (h : compile_typst_to_svg vres = .error e) :
    build_blog_post render s t hres vres = .error e := by
  simp [build_blog_post, hm, h]

theorem build_error_html (render : List Char → RenderContext → List Char)
    (s t : List Char) (hres : HtmlResult) (vres : SvgResult) (e : BuildError)
    (hm : has_math s = false) (h : compile_typst_to_html hres = .error e) :
    build_blog_post render s t hres vres = .error e := by
  simp [build_blog_post, hm, h]

theorem mainBuild_not_written (render : List Char → RenderContext → List Char)
    (argc : Nat) (s t : List Char) (hres : HtmlResult) (vres : SvgResult)
    (e : BuildError) (h : build_blog_post render s t hres vres = .error e) :
    (mainBuild render argc (some s) (some t) hres vres).wroteOutput = false ∧
    (mainBuild render argc (some s) (some t) hres vres).exitCode ≠ 0 := by
  by_cases hlt : argc < 3 <;>
    simp [mainBuild, hlt, h, MainResult.wroteOutput, MainResult.exitCode]

theorem compile_html_no_body (r : HtmlResult) (h0 : extractBody r.output = none) :
    ∃ e, compile_typst_to_html r = .error e := by
  unfold compile_typst_to_html
  by_cases hr : (r.returncode != 0) = true
  · exact ⟨_, by rw [if_pos hr]⟩
  · refine ⟨.noBody, ?_⟩
    rw [if_neg hr, h0]

theorem compile_svg_no_files (v : SvgResult)
    (h : v.files.filter (fun f => globMatchOut f.1) = []) :
    ∃ e, compile_typst_to_svg v = .error e := by
  unfold compile_typst_to_svg
  by_cases hr : (v.returncode != 0) = true
  · exact ⟨_, by rw [if_pos hr]⟩
  · refine ⟨.noSvgFiles, ?_⟩
    rw [if_neg hr, h]
    rfl

/-- Claim C8: the rendering mode is determined exactly once, before
compilation, and never changes mid-build: the SVG compilation path is
taken if and only if math is detected in the source, the HTML path
otherwise, and the mode flag passed to the template in the render context
equals the mode that selected the compilation path.  A successful build
produces exactly the one rendered output. -/
theorem build_mode_invariant (render : List Char → RenderContext → List Char)
    (s t : List Char) (hres : HtmlResult) (vres : SvgResult) :
    build_blog_post render s t hres vres =
      (if has_math s then compile_typst_to_svg vres else compile_typst_to_html hres).map
        (fun body => render t (renderFields (extract_metadata s) body (has_math s))) := by
  simp only [build_blog_post]
  cases has_math s
  · cases hc : compile_typst_to_html hres <;> simp [hc] <;> rfl
  · cases hc : compile_typst_to_svg vres <;> simp [hc] <;> rfl

/-- Claim C9: the build outcome is a deterministic function of the source
text, the template text, and the external compiler's behaviour; two runs
on unchanged inputs produce byte-identical results. -/
theorem build_idempotent (render : List Char → RenderContext → List Char)
    (argc : Nat) (src1 src2 tmpl1 tmpl2 : Option (List Char))
    (h1 h2 : HtmlResult) (v1 v2 : SvgResult)
    (hs : src1 = src2) (ht : tmpl1 = tmpl2) (hh : h1 = h2) (hv : v1 = v2) :
    mainBuild render argc src1 tmpl1 h1 v1 = mainBuild render argc src2 tmpl2 h2 v2 := by
  subst hs
  subst ht
  subst hh
  subst hv
  rfl

/-- Witness for C9: two runs on the same concrete inputs agree. -/
theorem build_idempotent_witness :
    mainBuild (fun _ c => c.CONTENT) 3 (some "src".data) (some "tpl".data)
        ⟨0, [], "<body>x</body>".data⟩ ⟨0, [], []⟩ =
      mainBuild (fun _ c => c.CONTENT) 3 (some "src".data) (some "tpl".data)
        ⟨0, [], "<body>x</body>".data⟩ ⟨0, [], []⟩ :=
  build_idempotent (fun _ c => c.CONTENT) 3 (some "src".data) (some "src".data)
    (some "tpl".data) (some "tpl".data) ⟨0, [], "<body>x</body>".data⟩
    ⟨0, [], "<body>x</body>".data⟩ ⟨0, [], []⟩ ⟨0, [], []⟩ rfl rfl rfl rfl

/-- Claim C7: whenever the compiler process exits with a non-zero status,
in either mode, the build aborts with a fatal error whose message contains
the captured stderr text of the compiler process. -/
theorem compiler_failure_reported (render : List Char → RenderContext → List Char)
    (s t : List Char) (hres : HtmlResult) (vres : SvgResult) :
    (has_math s = true → vres.returncode ≠ 0 →
      build_blog_post render s t hres vres =
        .error (.compilerFailed (svgFailMsg vres.stderr)) ∧
      vres.stderr <:+ svgFailMsg vres.stderr) ∧
    (has_math s = false → hres.returncode ≠ 0 →
      build_blog_post render s t hres vres =
        .error (.compilerFailed (htmlFailMsg hres.stderr)) ∧
      hres.stderr <:+ htmlFailMsg hres.stderr) := by
  constructor
  · intro hm hr
    exact ⟨build_error_svg render s t hres vres _ hm (compile_svg_fail vres hr),
      List.suffix_append _ _⟩
  · intro hm hr
    exact ⟨build_error_html render s t hres vres _ hm (compile_html_fail hres hr),
      List.suffix_append _ _⟩

/-- Witness for C7 at concrete inputs in both modes. -/
theorem compiler_failure_reported_witness :
    (build_blog_post (fun _ c => c.CONTENT) "$x$".data "tpl".data
        ⟨0, [], []⟩ ⟨1, "boom".data, []⟩ =
      .error (.compilerFailed (svgFailMsg "boom".data)) ∧
      "boom".data <:+ svgFailMsg "boom".data) ∧
    (build_blog_post (fun _ c => c.CONTENT) "abc".data "tpl".data
        ⟨1, "bad".data, []⟩ ⟨0, [], []⟩ =
      .error (.compilerFailed (htmlFailMsg "bad".data)) ∧
      "bad".data <:+ htmlFailMsg "bad".data) :=
  ⟨(compiler_failure_reported (fun _ c => c.CONTENT) "$x$".data "tpl".data
      ⟨0, [], []⟩ ⟨1, "boom".data, []⟩).1 (by decide) (by decide),
   (compiler_failure_reported (fun _ c => c.CONTENT) "abc".data "tpl".data
      ⟨1, "bad".data, []⟩ ⟨0, [], []⟩).2 (by decide) (by decide)⟩

/-- Claim C4: every failing build invocation, whether for a missing source
file, a missing template file, a compiler process exiting non-zero, HTML
compiler output without body markers, or zero generated SVG page files,
terminates with a non-zero exit status and never writes the destination
file. -/
theorem build_failures_abort :
    (∀ (render : List Char → RenderContext → List Char) (argc : Nat)
        (tmpl : Option (List Char)) (hres : HtmlResult) (vres : SvgResult),
      (mainBuild render argc none tmpl hres vres).wroteOutput = false ∧
      (mainBuild render argc none tmpl hres vres).exitCode ≠ 0) ∧
    (∀ (render : List Char → RenderContext → List Char) (argc : Nat)
        (s : List Char) (hres : HtmlResult) (vres : SvgResult),
      (mainBuild render argc (some s) none hres vres).wroteOutput = false ∧
      (mainBuild render argc (some s) none hres vres).exitCode ≠ 0) ∧
    (∀ (render : List Char → RenderContext → List Char) (argc : Nat)
        (s t : List Char) (hres : HtmlResult) (vres : SvgResult),
      has_math s = true → vres.returncode ≠ 0 →
      (mainBuild render argc (some s) (some t) hres vres).wroteOutput = false ∧
      (mainBuild render argc (some s) (some t) hres vres).exitCode ≠ 0) ∧
    (∀ (render : List Char → RenderContext → List Char) (argc : Nat)
        (s t : List Char) (hres : HtmlResult) (vres : SvgResult),
      has_math s = false → hres.returncode ≠ 0 →
      (mainBuild render argc (some s) (some t) hres vres).wroteOutput = false ∧
      (mainBuild render argc (some s) (some t) hres vres).exitCode ≠ 0) ∧
    (∀ (render : List Char → RenderContext → List Char) (argc : Nat)
        (s t : List Char) (hres : HtmlResult) (vres : SvgResult),
      has_math s = false → extractBody hres.output = none →
      (mainBuild render argc (some s) (some t) hres vres).wroteOutput = false ∧
      (mainBuild render argc (some s) (some t) hres vres).exitCode ≠ 0) ∧
    (∀ (render : List Char → RenderContext → List Char) (argc : Nat)
        (s t : List Char) (hres : HtmlResult) (vres : SvgResult),
      has_math s = true → vres.files.filter (fun f => globMatchOut f.1) = [] →
      (mainBuild render argc (some s) (some t) hres vres).wroteOutput = false ∧
      (mainBuild render argc (some s) (some t) hres vres).exitCode ≠ 0) := by
  refine ⟨?_, ?_, ?_, ?_, ?_, ?_⟩
  · intro render argc tmpl hres vres
    by_cases hlt : argc < 3 <;>
      simp [mainBuild, hlt, MainResult.wroteOutput, MainResult.exitCode]
  · intro render argc s hres vres
    by_cases hlt : argc < 3 <;>
      simp [mainBuild, hlt, MainResult.wroteOutput, MainResult.exitCode]
  · intro render argc s t hres vres hm hr
    exact mainBuild_not_written render argc s t hres vres _
      (build_error_svg render s t hres vres _ hm (compile_svg_fail vres hr))
  · intro render argc s t hres vres hm hr
    exact mainBuild_not_written render argc s t hres vres _
      (build_error_html render s t hres vres _ hm (compile_html_fail hres hr))
  · intro render argc s t hres vres hm h0
    obtain ⟨e, he⟩ := compile_html_no_body hres h0
    exact mainBuild_not_written render argc s t hres vres e
      (build_error_html render s t hres vres e hm he)
  · intro render argc s t hres vres hm h0
    obtain ⟨e, he⟩ := compile_svg_no_files vres h0
    exact mainBuild_not_written render argc s t hres vres e
      (build_error_svg render s t hres vres e hm he)

/-- Witness for C4: one concrete instance of each failure condition. -/
theorem build_failures_abort_witness :
    (mainBuild (fun _ c => c.CONTENT) 3 none (some []) ⟨0, [], []⟩
      ⟨0, [], []⟩).wroteOutput = false ∧
    (mainBuild (fun _ c => c.CONTENT) 3 (some "a".data) none ⟨0, [], []⟩
      ⟨0, [], []⟩).wroteOutput = false ∧
    (mainBuild (fun _ c => c.CONTENT) 3 (some "$x$".data) (some []) ⟨0, [], []⟩
      ⟨1, "e".data, []⟩).wroteOutput = false ∧
    (mainBuild (fun _ c => c.CONTENT) 3 (some "a".data) (some []) ⟨1, "e".data, []⟩
      ⟨0, [], []⟩).wroteOutput = false ∧
    (mainBuild (fun _ c => c.CONTENT) 3 (some "a".data) (some []) ⟨0, [], "nope".data⟩
      ⟨0, [], []⟩).wroteOutput = false ∧
    (mainBuild (fun _ c => c.CONTENT) 3 (some "$x$".data) (some []) ⟨0, [], []⟩
      ⟨0, [], []⟩).wroteOutput = false :=
  ⟨(build_failures_abort.1 (fun _ c => c.CONTENT) 3 (some []) ⟨0, [], []⟩ ⟨0, [], []⟩).1,
   (build_failures_abort.2.1 (fun _ c => c.CONTENT) 3 "a".data ⟨0, [], []⟩ ⟨0, [], []⟩).1,
   ((build_failures_abort.2.2.1 (fun _ c => c.CONTENT) 3 "$x$".data [] ⟨0, [], []⟩
      ⟨1, "e".data, []⟩) (by decide) (by decide)).1,
   ((build_failures_abort.2.2.2.1 (fun _ c => c.CONTENT) 3 "a".data [] ⟨1, "e".data, []⟩
      ⟨0, [], []⟩) (by decide) (by decide)).1,
   ((build_failures_abort.2.2.2.2.1 (fun _ c => c.CONTENT) 3 "a".data [] ⟨0, [], "nope".data⟩
      ⟨0, [], []⟩) (by decide) (by decide)).1,
   ((build_failures_abort.2.2.2.2.2 (fun _ c => c.CONTENT) 3 "$x$".data [] ⟨0, [], []⟩
      ⟨0, [], []⟩) (by decide) (by decide)).1⟩

theorem findSub_eq_firstOccur (pat s : List Char) : findSub pat s = firstOccur pat s := by
  induction s with
  | nil =>
    cases pat with
    | nil => rfl
    | cons a l => rfl
  | cons c rest ih =>
    simp only [findSub, firstOccur, List.length_cons]
    rw [List.range_succ_eq_map]
    by_cases hp : pat.isPrefixOf (c :: rest) = true
    · rw [if_pos hp, List.find?_cons_of_pos _ (by simpa using hp)]
    · rw [if_neg hp, List.find?_cons_of_neg _ (by simpa using hp), List.find?_map]
      have harg : ((fun i => pat.isPrefixOf ((c :: rest).drop i)) ∘ Nat.succ) =
          (fun i => pat.isPrefixOf (rest.drop i)) := by
        funext i
        simp [List.drop_succ_cons]
      rw [harg]
      rw [ih, firstOccur]

theorem findSub_of_isPrefixOf (pat s : List Char) (h : pat.isPrefixOf s = true) :
    findSub pat s = some 0 := by
  cases s with
  | nil =>
    cases pat with
    | nil => rfl
    | cons a l => simp [List.isPrefixOf] at h
  | cons c r => simp [findSub, h]

theorem findSub_close_append (inner : List Char) (h : ∀ c ∈ inner, c ≠ '<') :
    findSub bodyClose (inner ++ bodyClose) = some inner.length := by
  induction inner with
  | nil => rfl
  | cons c cs ih =>
    have hne : ('<' == c) = false :=
      beq_eq_false_iff_ne.mpr (fun e => h c (List.mem_cons_self c cs) e.symm)
    have hc : bodyClose.isPrefixOf (c :: (cs ++ bodyClose)) = false := by
      show (('<' == c) && _) = false
      rw [hne, Bool.false_and]
    show (if bodyClose.isPrefixOf (c :: (cs ++ bodyClose)) = true then some (0 : Nat)
         else (findSub bodyClose (cs ++ bodyClose)).map (· + 1)) = some (cs.length + 1)
    rw [hc, if_neg (by decide : ¬ (false = true))]
    rw [ih (fun x hx => h x (List.mem_cons_of_mem c hx))]
    rfl

/-- Claim C2: the HTML content extractor computes exactly the first region
delimited by the body markers, trimmed, as the spec words it (refinement
of the search-based definition), and in particular an output consisting of
the markers around an inner text with no markup returns that inner text
trimmed. -/
theorem extract_body_first_region :
    (∀ html : List Char, extractBody html = extractBodySpec html) ∧
    (∀ inner : List Char, (∀ c ∈ inner, c ≠ '<') →
      extractBody (bodyOpen ++ inner ++ bodyClose) = some (strip inner)) := by
  constructor
  · intro html
    simp only [extractBody, extractBodySpec, findSub_eq_firstOccur]
  · intro inner h
    rw [List.append_assoc]
    have h1 : findSub bodyOpen (bodyOpen ++ (inner ++ bodyClose)) = some 0 :=
      findSub_of_isPrefixOf _ _ (by simp)
    have h2 : (bodyOpen ++ (inner ++ bodyClose)).drop (0 + bodyOpen.length) =
        inner ++ bodyClose := by
      rw [Nat.zero_add, List.drop_left]
    unfold extractBody
    rw [h1]
    simp only [h2]
    rw [findSub_close_append inner h]
    show some (strip ((inner ++ bodyClose).take inner.length)) = some (strip inner)
    rw [List.take_left]

/-- Witness for C2 at a concrete compiler output. -/
theorem extract_body_first_region_witness :
    extractBody "<body> INNER </body>".data = some "INNER".data := by
  have h := extract_body_first_region.2 " INNER ".data (by decide)
  have e1 : bodyOpen ++ " INNER ".data ++ bodyClose = "<body> INNER </body>".data := by
    decide
  have e2 : strip " INNER ".data = "INNER".data := by decide
  rw [e1, e2] at h
  exact h

theorem munch1_cons_pos (p : Char → Bool) (c : Char) (l : List Char) (h : p c = true) :
    munch1 p (c :: l) = some (c :: l.takeWhile p, l.dropWhile p) := by
  simp [munch1, h]

theorem takeWhile_cons_neg (p : Char → Bool) (c : Char) (l : List Char)
    (h : p c = false) : (c :: l).takeWhile p = [] := by
  simp [List.takeWhile_cons, h]

theorem dropWhile_cons_neg (p : Char → Bool) (c : Char) (l : List Char)
    (h : p c = false) : (c :: l).dropWhile p = c :: l := by
  simp [List.dropWhile_cons, h]

theorem munch1_suffix (p : Char → Bool) (l : List Char) (a b : List Char)
    (h : munch1 p l = some (a, b)) : b <:+ l := by
  cases l with
  | nil => simp [munch1] at h
  | cons c rest =>
    by_cases hp : p c = true
    · rw [munch1_cons_pos p c rest hp] at h
      cases h
      exact (List.dropWhile_suffix p).trans (List.suffix_cons c rest)
    · simp [munch1, hp] at h

theorem matchDecl_gives_plain (s : List Char)
    (r : (List Char × List Char) × List Char) (h : matchDecl s = some r) :
    ∃ t, t <:+ s ∧ matchPlainDecl t = some r := by
  unfold matchDecl at h
  by_cases hpre : ("#let".data.isPrefixOf s) = true
  · rw [if_pos hpre] at h
    cases hm : munch1 isSpaceChar (s.drop 4) with
    | none =>
      rw [hm] at h
      exact Option.noConfusion h
    | some pr =>
      obtain ⟨sp, s1⟩ := pr
      rw [hm] at h
      refine ⟨s1, ?_, h⟩
      exact (munch1_suffix isSpaceChar (s.drop 4) sp s1 hm).trans (List.drop_suffix 4 s)
  · rw [if_neg hpre] at h
    exact Option.noConfusion h

theorem scanDeclsF_eq_nil (fuel : Nat) : ∀ s : List Char,
    (∀ t ∈ s.tails, matchPlainDecl t = none) → scanDeclsF fuel s = [] := by
  induction fuel with
  | zero =>
    intro s h
    cases s <;> rfl
  | succ n ih =>
    intro s h
    cases s with
    | nil => rfl
    | cons c rest =>
      have hmd : matchDecl (c :: rest) = none := by
        cases hm : matchDecl (c :: rest) with
        | none => rfl
        | some r =>
          obtain ⟨t, hts, hmp⟩ := matchDecl_gives_plain _ _ hm
          rw [h t ((List.mem_tails _ _).mpr hts)] at hmp
          cases hmp
      have step : scanDeclsF (n + 1) (c :: rest) = scanDeclsF n rest := by
        show (match matchDecl (c :: rest) with
          | some (kv, remaining) => kv :: scanDeclsF n remaining
          | none => scanDeclsF n rest) = scanDeclsF n rest
        rw [hmd]
      rw [step]
      exact ih rest (fun t ht => h t ((List.mem_tails _ _).mpr
        (((List.mem_tails _ _).mp ht).trans (List.suffix_cons c rest))))

/-- Claim C5: for every source text containing zero declarations matching
the key-equals-quoted-value pattern, the metadata extractor returns an
empty mapping (and, being a total function, raises no error), and the
render-context fields fall back to their defaults: the title becomes
Untitled and the slug, dates, description and keywords become empty. -/
theorem empty_metadata_defaults (content body : List Char) (use_svg : Bool)
    (h : ∀ t ∈ content.tails, matchPlainDecl t = none) :
    extract_metadata content = [] ∧
    renderFields (extract_metadata content) body use_svg =
      { TITLE := "Untitled".data, SLUG := [], DATE_DISPLAY := [], DATE_ISO := []
      , DESCRIPTION := [], KEYWORDS := [], CONTENT := body, IS_SVG := use_svg } := by
  have he : extract_metadata content = [] := scanDeclsF_eq_nil _ content h
  refine ⟨he, ?_⟩
  rw [he]
  rfl

/-- Witness for C5 at a concrete declaration-free source text. -/
theorem empty_metadata_defaults_witness :
    extract_metadata "Hello world!".data = [] ∧
    renderFields (extract_metadata "Hello world!".data) "BODY".data false =
      { TITLE := "Untitled".data, SLUG := [], DATE_DISPLAY := [], DATE_ISO := []
      , DESCRIPTION := [], KEYWORDS := [], CONTENT := "BODY".data, IS_SVG := false } :=
  empty_metadata_defaults "Hello world!".data "BODY".data false (by decide)

theorem strLt_asymm : ∀ a b : List Char, strLt a b = true → strLt b a = false := by
  intro a
  induction a with
  | nil =>
    intro b h
    cases b with
    | nil => exact absurd h (by decide)
    | cons c cs => rfl
  | cons x xs ih =>
    intro b h
    cases b with
    | nil => simp [strLt] at h
    | cons y ys =>
      simp only [strLt] at h ⊢
      by_cases h1 : x.toNat < y.toNat
      · rw [if_neg (by omega : ¬ y.toNat < x.toNat), if_pos h1]
      · rw [if_neg h1] at h
        by_cases h2 : y.toNat < x.toNat
        · rw [if_pos h2] at h
          exact absurd h (by decide)
        · rw [if_neg h2] at h
          rw [if_neg h2, if_neg h1]
          exact ih ys h

theorem strLt_false_trans : ∀ a b c : List Char,
    strLt b a = false → strLt c b = false → strLt c a = false := by
  intro a
  induction a with
  | nil =>
    intro b c _ _
    cases c with
    | nil => rfl
    | cons z zs => rfl
  | cons x xs ih =>
    intro b c h1 h2
    cases b with
    | nil => simp [strLt] at h1
    | cons y ys =>
      cases c with
      | nil => simp [strLt] at h2
      | cons z zs =>
        simp only [strLt] at h1 h2 ⊢
        by_cases hyx : y.toNat < x.toNat
        · rw [if_pos hyx] at h1
          exact absurd h1 (by decide)
        · rw [if_neg hyx] at h1
          by_cases hzy : z.toNat < y.toNat
          · rw [if_pos hzy] at h2
            exact absurd h2 (by decide)
          · rw [if_neg hzy] at h2
            by_cases hxy : x.toNat < y.toNat
            · rw [if_neg (by omega : ¬ z.toNat < x.toNat),
                if_pos (by omega : x.toNat < z.toNat)]
            · rw [if_neg hxy] at h1
              by_cases hyz : y.toNat < z.toNat
              · rw [if_neg (by omega : ¬ z.toNat < x.toNat),
                  if_pos (by omega : x.toNat < z.toNat)]
              · rw [if_neg hyz] at h2
                rw [if_neg (by omega : ¬ z.toNat < x.toNat),
                  if_neg (by omega : ¬ x.toNat < z.toNat)]
                exact ih ys zs h1 h2

theorem mem_insertByName (z x : List Char × List Char) :
    ∀ l : List (List Char × List Char), z ∈ insertByName x l → z = x ∨ z ∈ l := by
  intro l
  induction l with
  | nil =>
    intro h
    simp [insertByName] at h
    exact Or.inl h
  | cons y ys ih =>
    intro h
    simp only [insertByName] at h
    by_cases hc : strLt y.1 x.1 = true
    · rw [if_pos hc] at h
      rcases List.mem_cons.mp h with h | h
      · exact Or.inr (List.mem_cons.mpr (Or.inl h))
      · rcases ih h with h | h
        · exact Or.inl h
        · exact Or.inr (List.mem_cons.mpr (Or.inr h))
    · rw [if_neg hc] at h
      rcases List.mem_cons.mp h with h | h
      · exact Or.inl h
      · exact Or.inr h

theorem pairwise_insertByName (x : List Char × List Char) :
    ∀ l : List (List Char × List Char),
      l.Pairwise (fun a b => strLt b.1 a.1 = false) →
      (insertByName x l).Pairwise (fun a b => strLt b.1 a.1 = false) := by
  intro l
  induction l with
  | nil =>
    intro _
    simp [insertByName]
  | cons y ys ih =>
    intro h
    rcases List.pairwise_cons.mp h with ⟨hy, hys⟩
    by_cases hc : strLt y.1 x.1 = true
    · have hrw : insertByName x (y :: ys) = y :: insertByName x ys := by
        simp [insertByName, hc]
      rw [hrw]
      refine List.pairwise_cons.mpr ⟨?_, ih hys⟩
      intro z hz
      rcases mem_insertByName z x ys hz with rfl | hzys
      · exact strLt_asymm y.1 z.1 hc
      · exact hy z hzys
    · have hcf : strLt y.1 x.1 = false := Bool.eq_false_iff.mpr hc
      have hrw : insertByName x (y :: ys) = x :: y :: ys := by
        simp [insertByName, hc]
      rw [hrw]
      refine List.pairwise_cons.mpr ⟨?_, h⟩
      intro z hz
      rcases List.mem_cons.mp hz with rfl | hzys
      · exact hcf
      · exact strLt_false_trans x.1 y.1 z.1 hcf (hy z hzys)

theorem pairwise_sortByName (l : List (List Char × List Char)) :
    (sortByName l).Pairwise (fun a b => strLt b.1 a.1 = false) := by
  induction l with
  | nil => simp [sortByName]
  | cons x xs ih => exact pairwise_insertByName x (sortByName xs) ih

set_option maxHeartbeats 2000000 in
/-- Claim C10: the SVG content extractor orders the generated page files by
lexicographic filename sort rather than numeric page order, and joins the
per-page fragments with a newline character.  First part: for every
compiler run, the extracted content is the newline join of the matching
page files in sorted filename order.  Second part: in that sorted order,
for every file set, no entry named output-10.svg ever follows an entry
named output-2.svg, i.e. every tenth-page file is placed before every
second-page file.  Third part: for the eleven-page run the combined result
places the content of output-10.svg before that of output-2.svg, with
newlines between consecutive pages. -/
theorem svg_pages_lexicographic_order :
    (∀ v : SvgResult, v.returncode = 0 →
      (sortByName (v.files.filter (fun f => globMatchOut f.1))).isEmpty = false →
      compile_typst_to_svg v =
        .ok (joinNL ((sortByName (v.files.filter (fun f => globMatchOut f.1))).map
          (fun f => f.2)))) ∧
    (∀ (files l1 l2 l3 : List (List Char × List Char)) (x y : List Char × List Char),
      sortByName (files.filter (fun f => globMatchOut f.1)) =
        l1 ++ x :: (l2 ++ y :: l3) →
      x.1 = "output-2.svg".data → y.1 ≠ "output-10.svg".data) ∧
    (∀ c0 c1 c2 c3 c4 c5 c6 c7 c8 c9 c10 : List Char,
      compile_typst_to_svg ⟨0, [],
        [("output-0.svg".data, c0), ("output-1.svg".data, c1), ("output-2.svg".data, c2),
         ("output-3.svg".data, c3), ("output-4.svg".data, c4), ("output-5.svg".data, c5),
         ("output-6.svg".data, c6), ("output-7.svg".data, c7), ("output-8.svg".data, c8),
         ("output-9.svg".data, c9), ("output-10.svg".data, c10)]⟩ =
        .ok (c0 ++ '\n' :: (c1 ++ '\n' :: (c10 ++ '\n' :: (c2 ++ '\n' :: (c3 ++ '\n' ::
          (c4 ++ '\n' :: (c5 ++ '\n' :: (c6 ++ '\n' :: (c7 ++ '\n' ::
            (c8 ++ '\n' :: c9))))))))))) := by
  refine ⟨?_, ?_, ?_⟩
  · intro v h0 hne
    simp [compile_typst_to_svg, h0, hne]
  · intro files l1 l2 l3 x y hdec hx
    have hp := pairwise_sortByName (files.filter (fun f => globMatchOut f.1))
    rw [hdec] at hp
    have hsub : List.Sublist (x :: (l2 ++ y :: l3)) (l1 ++ x :: (l2 ++ y :: l3)) :=
      List.sublist_append_right l1 (x :: (l2 ++ y :: l3))
    have hp2 := hp.sublist hsub
    have hxy : strLt y.1 x.1 = false :=
      (List.pairwise_cons.mp hp2).1 y (List.mem_append_right l2 (List.mem_cons_self y l3))
    intro hy
    rw [hx, hy] at hxy
    exact absurd hxy (by decide)
  · intro c0 c1 c2 c3 c4 c5 c6 c7 c8 c9 c10
    rfl

/-- Witness for C10: the extracted content of a concrete one-page run, and
the ordering conclusion at a concrete file set containing output-2.svg,
output-3.svg and output-10.svg. -/
theorem svg_pages_lexicographic_order_witness :
    compile_typst_to_svg ⟨0, [], [("output-0.svg".data, "a".data)]⟩ =
      .ok (joinNL ((sortByName ([("output-0.svg".data, "a".data)].filter
        (fun f => globMatchOut f.1))).map (fun f => f.2))) ∧
    "output-3.svg".data ≠ "output-10.svg".data := by
  constructor
  · exact svg_pages_lexicographic_order.1 ⟨0, [], [("output-0.svg".data, "a".data)]⟩
      (by decide) (by decide)
  · exact svg_pages_lexicographic_order.2.1
      [("output-2.svg".data, "b".data), ("output-3.svg".data, "c".data),
        ("output-10.svg".data, "a".data)]
      [("output-10.svg".data, "a".data)] [] []
      ("output-2.svg".data, "b".data) ("output-3.svg".data, "c".data)
      (by decide) (by decide)
